import Mathlib

/-!
Verification development for the benchmark aggregation and reporting engine in
`graph_bench/plot_bench2.py`.  Python classes are embedded as Lean structures;
Python `float` arithmetic on durations is modelled with exact rationals `ℚ`;
Python operations that can raise (dictionary `KeyError`, division by zero,
list index errors) are modelled with `Option`, where `none` marks the raise.
-/

/-- Embedding of the Python class `Time` (fields `secs`, `nanos`).
Python integers are unbounded, so both fields are `Int`. -/
structure Time where
  secs : Int
  nanos : Int
deriving Repr, DecidableEq

/-- `Time.__add__`: componentwise sum with a single carry when the nanosecond
field reaches `1_000_000_000`. -/
def Time.add (a b : Time) : Time :=
  let secs := a.secs + b.secs
  let nanos := a.nanos + b.nanos
  if nanos ≥ 1000000000 then ⟨secs + 1, nanos - 1000000000⟩ else ⟨secs, nanos⟩

/-- `Time.__sub__`: componentwise difference with a single borrow when the
nanosecond field drops below zero. -/
def Time.sub (a b : Time) : Time :=
  let secs := a.secs - b.secs
  let nanos := a.nanos - b.nanos
  if nanos < 0 then ⟨secs - 1, nanos + 1000000000⟩ else ⟨secs, nanos⟩

/-- `Time.__float__`: `(secs + nanos / 1e9) * 1000.0`, i.e. milliseconds. -/
def Time.float (t : Time) : ℚ :=
  ((t.secs : ℚ) + (t.nanos : ℚ) / 1000000000) * 1000

/-- `Time.as_num`: returns `float(self)`. -/
def Time.as_num (t : Time) : ℚ :=
  t.float

/-- The value of a `Time` in whole nanoseconds. -/
def Time.total_nanos (t : Time) : Int :=
  t.secs * 1000000000 + t.nanos

/-- The representation invariant of the spec: the nanosecond field is
normalized into `[0, 1e9)`. -/
def Time.normalized (t : Time) : Prop :=
  0 ≤ t.nanos ∧ t.nanos < 1000000000

instance (t : Time) : Decidable t.normalized := by
  unfold Time.normalized
  infer_instance

theorem Time.total_nanos_add (a b : Time) :
    (Time.add a b).total_nanos = a.total_nanos + b.total_nanos := by
  simp only [Time.add, Time.total_nanos]
  split <;> ring

theorem Time.total_nanos_sub (a b : Time) :
    (Time.sub a b).total_nanos = a.total_nanos - b.total_nanos := by
  simp only [Time.sub, Time.total_nanos]
  split <;> ring

theorem Time.normalized_add {a b : Time} (ha : a.normalized) (hb : b.normalized) :
    (Time.add a b).normalized := by
  simp only [Time.normalized, Time.add] at *
  split <;> simp <;> omega

theorem Time.normalized_sub {a b : Time} (ha : a.normalized) (hb : b.normalized) :
    (Time.sub a b).normalized := by
  simp only [Time.normalized, Time.sub] at *
  split <;> simp <;> omega

theorem Time.eq_of_total_nanos {a b : Time} (ha : a.normalized) (hb : b.normalized)
    (h : a.total_nanos = b.total_nanos) : a = b := by
  cases a with
  | mk s1 n1 =>
    cases b with
    | mk s2 n2 =>
      simp only [Time.normalized, Time.total_nanos] at *
      have hn : n1 = n2 := by omega
      have hs : s1 = s2 := by omega
      simp [hn, hs]

theorem Time.as_num_eq_total_nanos (t : Time) :
    t.as_num = (t.total_nanos : ℚ) / 1000000
 := by
  simp only [Time.as_num, Time.float, Time.total_nanos]
  push_cast
  ring

/-- Python float division, raising `ZeroDivisionError` on a zero denominator;
the raise is modelled as `none`. -/
def pydiv (a b : ℚ) : Option ℚ :=
  if b = 0 then none else some (a / b)

/-- Embedding of the Python class `BenchStats`.  The constructor applies
`int(...)` to every counter, so counters are `Int`; `cache_access_time` is
computed from `cache_read_time + cache_store_time` (see `cache_access_time`
below). -/
structure BenchStats where
  time : Time
  circle_check_time : Time
  cache_read_time : Time
  cache_store_time : Time
  edges_traversed : Int
  nodes_visited : Int
  cache_reads : Int
  cache_writes : Int
  cache_hits : Int
  cache_size_estimate : Int
  cache_size : Int
  graph_size : Int
deriving Repr, DecidableEq

/-- `BenchStats.__init__` stores `cache_read_time + cache_store_time` in
`self.cache_access_time`; we expose it as a derived accessor. -/
def BenchStats.cache_access_time (s : BenchStats) : Time :=
  Time.add s.cache_read_time s.cache_store_time

/-- `BenchStats.cache_frac`: returns `0.0` when `graph_size == 0`, otherwise
`cache_size / graph_size` (Python float division, which would raise on a zero
denominator were it reached). -/
def BenchStats.cache_frac (s : BenchStats) : Option ℚ :=
  if s.graph_size = 0 then some 0
  else pydiv (s.cache_size : ℚ) (s.graph_size : ℚ)

/-- `BenchStats.time_uncached`: `self.time - self.cache_access_time - self.circle_check_time`. -/
def BenchStats.time_uncached (s : BenchStats) : Time :=
  Time.sub (Time.sub s.time s.cache_access_time) s.circle_check_time

/-- Embedding of the Python class `BenchResult2`; `num_queries` is stored via
`int(num_queries)`. -/
structure BenchResult2 where
  name : String
  head_type : String
  pattern_var : String
  query_type : String
  num_queries : Int
  stats : BenchStats
deriving Repr, DecidableEq

/-- `BenchResult2.to_str`: the `"::"`-joined rendering of the five key fields. -/
def BenchResult2.to_str (r : BenchResult2) : String :=
  r.name ++ "::" ++ r.head_type ++ "::" ++ r.pattern_var ++ "::" ++
    r.query_type ++ "::" ++ toString r.num_queries

/-- `BenchResult2.eq_br`: compares the two records by comparing their
`to_str` renderings. -/
def BenchResult2.eq_br (a b : BenchResult2) : Bool :=
  a.to_str == b.to_str

/-- `BenchResult2.time(with_circle)`: total time if `with_circle`, otherwise
`time_uncached + cache_access_time`. -/
def BenchResult2.time (r : BenchResult2) (with_circle : Bool) : Time :=
  if with_circle then r.stats.time
  else Time.add r.stats.time_uncached r.stats.cache_access_time

/-- `BenchResult2.circle_check_time(with_circle)`: the stored circle-check
time if `with_circle`, otherwise `Time(0, 0)`. -/
def BenchResult2.circle_check_time (r : BenchResult2) (with_circle : Bool) : Time :=
  if with_circle then r.stats.circle_check_time else ⟨0, 0⟩

/-- The generator-based lookup in `get_data.get_entry`: the first record of
`bench_data` for which `r.eq_br(matcher)` holds; `StopIteration` (re-raised
as `Exception`) is modelled as `none`. -/
def get_entry (bench_data : List BenchResult2) (matcher : BenchResult2) :
    Option BenchResult2 :=
  bench_data.find? (fun r => r.eq_br matcher)

/-- The raw nested document consumed by `BenchResult2.from_json`:
`pattern-name → head-type → pattern_var → base|cached → num_queries → stats`.
JSON objects are modelled as association lists (preserving document order);
the leaf stats objects and the integer parse of the `num_queries` key are
taken as already performed, since the claims under study concern the walk
itself. -/
abbrev JsonDoc :=
  List (String × List (String × List (String × List (String × List (Int × BenchStats)))))

/-- `BenchResult2.from_json`: walks the five nesting levels and emits one
`BenchResult2` per leaf, appending in document order. -/
def BenchResult2.from_json (data : JsonDoc) : List BenchResult2 :=
  data.flatMap (fun p0 =>
    p0.2.flatMap (fun p1 =>
      p1.2.flatMap (fun p2 =>
        p2.2.flatMap (fun p3 =>
          p3.2.map (fun p4 =>
            { name := p0.1, head_type := p1.1, pattern_var := p2.1,
              query_type := p3.1, num_queries := p4.1, stats := p4.2 })))))

/-- The number of leaf records of a raw document. -/
def countLeaves (data : JsonDoc) : Nat :=
  (data.map (fun p0 =>
    (p0.2.map (fun p1 =>
      (p1.2.map (fun p2 =>
        (p2.2.map (fun p3 => p3.2.length)).sum)).sum)).sum)).sum

/-- Substring test over character lists, used to model Python's `t in s`. -/
def listContains (s t : List Char) : Bool :=
  t.isPrefixOf s ||
    match s with
    | [] => false
    | _ :: cs => listContains cs t

/-- Python's substring operator `t in s` on strings. -/
def strContains (s t : String) : Bool :=
  listContains s.toList t.toList

/-- Helper for `splitDash`: accumulates the current segment (reversed). -/
def splitDashAux : List Char → List Char → List String
  | [], acc => [String.mk acc.reverse]
  | c :: cs, acc =>
    if c = '-' then String.mk acc.reverse :: splitDashAux cs []
    else splitDashAux cs (c :: acc)

/-- Python's `var.split("-")` (single-character separator). -/
def splitDash (s : String) : List String :=
  splitDashAux s.toList []

/-- The `tab` dictionary shared by `pattern_var_display_name` and
`pattern_var_table_entry`; a missing key raises `KeyError` (`none`). -/
def patternTab (n : String) : Option String :=
  if n = "tree" then some "Tree"
  else if n = "linear" then some "Linear"
  else if n = "circle" then some "Circular"
  else if n = "diamond" then some "Diamond"
  else none

/-- `pattern_var_display_name`: splits the variant label on `"-"` and formats
it; list indexing (`parts[1]`, `parts[2]`) and the `tab[name]` lookup can
raise, modelled as `none`. -/
def pattern_var_display_name (var : String) : Option String := do
  let parts := splitDash var
  let name ← parts[0]?
  let s1 ← parts[1]?
  let disp ← patternTab name
  if name = "diamond" then
    let s2 ← parts[2]?
    pure (disp ++ " ($N = " ++ s1 ++ ", M = " ++ s2 ++ "$)")
  else
    pure (disp ++ " ($N = " ++ s1 ++ "$)")

/-- `head_display_name`. -/
def head_display_name (head : String) : String :=
  if strContains head "fanchain" then "Fanout"
  else if strContains head "linear" then "Linear"
  else head

/-- The module constant `BAD_SPEEDUP_THRESHOLD = 1.0`. -/
def BAD_SPEEDUP_THRESHOLD : ℚ := 1

/-- The module constant `GOOD_SPEEDUP_THRESHOLD = 1.0001`. -/
def GOOD_SPEEDUP_THRESHOLD : ℚ := 10001 / 10000

/-- The module dictionary `PERFORMANCE_BREAK_EVEN`; missing keys raise
`KeyError` (`none`). -/
def PERFORMANCE_BREAK_EVEN (kind : String) (name : String) : Option Int :=
  if kind = "fanout" then
    if name = "sg_tree" then some 2
    else if name = "sg_linear" then some 2
    else if name = "sg_diamond" then some 1
    else if name = "sg_circle" then some 5
    else none
  else if kind = "linear" then
    if name = "sg_tree" then some 2
    else if name = "sg_linear" then some 2
    else if name = "sg_diamond" then some 1
    else if name = "sg_circle" then some 4
    else none
  else none

/-- `get_break_even`: routes on whether `"fan"` occurs in the head label. -/
def get_break_even (head : String) (name : String) : Option Int :=
  if strContains head "fan" then PERFORMANCE_BREAK_EVEN "fanout" name
  else PERFORMANCE_BREAK_EVEN "linear" name

/-- The three-way classification outcome of §4.4: `value < low → BAD`,
`value > high → GOOD`, otherwise `NEUTRAL`. -/
inductive Rating where
  | GOOD
  | NEUTRAL
  | BAD
deriving Repr, DecidableEq

/-- The classification applied inline in `to_table1_row` (and, with the size
thresholds, in `to_table2_row`): first compare against the low threshold,
then against the high one. -/
def classify (value low high : ℚ) : Rating :=
  if value < low then .BAD
  else if value > high then .GOOD
  else .NEUTRAL

/-- The speedup ratio computed in `to_table1_row` (line 373):
`b.stats.time.as_num() / cache_time.as_num()` with
`cache_time = c.time(with_circle)`.  Total here (`ℚ` division); the
zero-denominator raise is modelled where the ratio is consumed. -/
def speedup (b c : BenchResult2) (with_circle : Bool) : ℚ :=
  b.stats.time.as_num / (c.time with_circle).as_num

/-- Exact-arithmetic model of Python's `f"{x:.2f}"`: round the value to whole
hundredths (ties to even, as IEEE-754 formatting does on exact ties) and
render with two decimal digits. -/
def fmt2 (q : ℚ) : String :=
  let s := q * 100
  let fl : Int := Int.floor s
  let n : Int :=
    if s - (fl : ℚ) > 1 / 2 then fl + 1
    else if s - (fl : ℚ) < 1 / 2 then fl
    else if fl % 2 = 0 then fl else fl + 1
  let sign := if n < 0 then "-" else ""
  let m := n.natAbs
  let fp := m % 100
  let fps := if fp < 10 then "0" ++ toString fp else toString fp
  sign ++ toString (m / 100) ++ "." ++ fps

/-- Embedding of the Python class `TableRow`. -/
structure TableRow where
  entries : List String
deriving Repr, DecidableEq

/-- `TableRow.to_str`: joins the entries with `" & "` and closes the LaTeX row. -/
def TableRow.to_str (r : TableRow) : String :=
  String.intercalate " & " r.entries ++ " \\\\ \\hline\n"

/-- Embedding of the Python class `VariationData` (with `fname` already
resolved, as the constructor does). -/
structure VariationData where
  name : String
  head_type : String
  pattern_var : List String
  plot_title : String
  fname : String
deriving Repr, DecidableEq

/-- A Python `dict[str, list[BenchResult2]]`, modelled as an association list
in insertion order (Python dicts preserve insertion order). -/
abbrev Assoc := List (String × List BenchResult2)

/-- Dictionary lookup `d[k]`; an absent key raises `KeyError` (`none`). -/
def assocGet (d : Assoc) (k : String) : Option (List BenchResult2) :=
  match d with
  | [] => none
  | (k2, l) :: rest => if k2 = k then some l else assocGet rest k

/-- Stable insertion of a record into a list sorted ascending by
`num_queries` (equal keys keep the later-inserted element last). -/
def insertByNq (a : BenchResult2) : List BenchResult2 → List BenchResult2
  | [] => [a]
  | b :: l => if a.num_queries < b.num_queries then a :: b :: l else b :: insertByNq a l

/-- Python's stable ascending `list.sort(key=lambda x: x.num_queries)`. -/
def sortByNq (l : List BenchResult2) : List BenchResult2 :=
  l.foldl (fun acc a => insertByNq a acc) []

/-- One step of `BenchResultVariation.__init__`'s inner-dict update: create
the key with `[]` if absent, append the record, and re-sort by `num_queries`
(the source sorts the bucket after every append). -/
def dictAppend (d : Assoc) (k : String) (v : BenchResult2) : Assoc :=
  match d with
  | [] => [(k, sortByNq [v])]
  | (k2, l) :: rest =>
    if k2 = k then (k2, sortByNq (l ++ [v])) :: rest
    else (k2, l) :: dictAppend rest k v

/-- Embedding of the Python class `BenchResultVariation`.  The source keeps
`self.data = {"base": ..., "cached": ...}`; the two inner dictionaries are
stored here as the `base` and `cached` fields.  `var_dict` mirrors the unused
`self.var_dict` attribute. -/
structure BenchResultVariation where
  var : VariationData
  var_dict : List (String × List BenchResult2)
  base : Assoc
  cached : Assoc
deriving Repr, DecidableEq

/-- One loop iteration of `BenchResultVariation.__init__`: if the record
matches the variation's name, head type and one of its variant labels, append
it to the bucket selected by `dct[br.query_type]` — where a `query_type`
other than `"base"`/`"cached"` raises `KeyError` (`none`). -/
def addRecord (var : VariationData) (acc : Assoc × Assoc) (br : BenchResult2) :
    Option (Assoc × Assoc) :=
  if br.name = var.name ∧ br.head_type = var.head_type ∧
      br.pattern_var ∈ var.pattern_var then
    if br.query_type = "base" then some (dictAppend acc.1 br.pattern_var br, acc.2)
    else if br.query_type = "cached" then some (acc.1, dictAppend acc.2 br.pattern_var br)
    else none
  else some acc

/-- `BenchResultVariation.__init__`: folds `addRecord` over the loaded
records, starting from the empty `{"base": {}, "cached": {}}` dictionaries. -/
def BenchResultVariation.init (var : VariationData)
    (bench_results : List BenchResult2) : Option BenchResultVariation :=
  (bench_results.foldlM (addRecord var) (([], []) : Assoc × Assoc)).map
    (fun p => ⟨var, var.pattern_var.map (fun v => (v, [])), p.1, p.2⟩)

/-- `BenchResultVariation.base_var`: `self.data["base"][var]`. -/
def BenchResultVariation.base_var (s : BenchResultVariation) (v : String) :
    Option (List BenchResult2) :=
  assocGet s.base v

/-- `BenchResultVariation.cached_var`: `self.data["cached"][var]`. -/
def BenchResultVariation.cached_var (s : BenchResultVariation) (v : String) :
    Option (List BenchResult2) :=
  assocGet s.cached v

/-- `BenchResultVariation.to_table1_row`: one row per variant.  The loop body
iterates `zip(self.base_var(var), self.cached_var(var))` — `zip` stops at the
shorter series — accumulating three `" / "`-separated string columns, then
strips the trailing separator, looks up the break-even count and assembles
the row.  Dictionary/lookup raises and the division by a zero
`cache_time.as_num()` are modelled as `none`. -/
def BenchResultVariation.to_table1_row (s : BenchResultVariation) :
    Option (List TableRow) :=
  s.var.pattern_var.mapM (fun v => do
    let bs ← s.base_var v
    let cs ← s.cached_var v
    let acc ← (List.zip bs cs).foldlM
      (fun (acc : String × String × String) bc => do
        let b := bc.1
        let c := bc.2
        let cache_time := c.time (strContains v "circle")
        let sp ← pydiv b.stats.time.as_num cache_time.as_num
        let speedup_col :=
          if sp < BAD_SPEEDUP_THRESHOLD then
            acc.2.2 ++ "\\negative\x7b" ++ fmt2 sp ++ "x\x7d / "
          else if sp > GOOD_SPEEDUP_THRESHOLD then
            acc.2.2 ++ "\\positive\x7b" ++ fmt2 sp ++ "x\x7d / "
          else acc.2.2 ++ fmt2 sp ++ "x / "
        pure (acc.1 ++ fmt2 b.stats.time.as_num ++ " / ",
              acc.2.1 ++ fmt2 cache_time.as_num ++ " / ",
              speedup_col))
      (("", "", "") : String × String × String)
    let break_even ← get_break_even s.var.head_type s.var.name
    let pat ← pattern_var_display_name v
    pure (TableRow.mk
      [head_display_name s.var.head_type,
       pat,
       acc.1.dropRight 3,
       acc.2.1.dropRight 3,
       acc.2.2.dropRight 3,
       toString break_even]))

/-- A stats leaf whose only nonzero field is the total time, used to build
concrete example records. -/
def statsWith (t : Time) : BenchStats :=
  ⟨t, ⟨0, 0⟩, ⟨0, 0⟩, ⟨0, 0⟩, 0, 0, 0, 0, 0, 0, 0, 0⟩

/-- The `sg_tree`/fanout-head variation restricted to one variant label. -/
def var0 : VariationData :=
  ⟨"sg_tree", "fanchain-25-10", ["tree-40"], "Tree pattern with Fanout Head", "sg_tree-fan"⟩

/-- A baseline record for `var0` taking 2 ms. -/
def baseRec (nq : Int) : BenchResult2 :=
  ⟨"sg_tree", "fanchain-25-10", "tree-40", "base", nq, statsWith ⟨0, 2000000⟩⟩

/-- A cached record for `var0` taking 1 ms. -/
def cachedRec (nq : Int) : BenchResult2 :=
  ⟨"sg_tree", "fanchain-25-10", "tree-40", "cached", nq, statsWith ⟨0, 1000000⟩⟩

/-- A variation view whose baseline series has query counts 1, 5, 10 but
whose cached series has only 1, 5. -/
def view1 : BenchResultVariation :=
  ⟨var0, [("tree-40", [])],
   [("tree-40", [baseRec 1, baseRec 5, baseRec 10])],
   [("tree-40", [cachedRec 1, cachedRec 5])]⟩

/-- The same view with the baseline series truncated to the aligned prefix. -/
def view2 : BenchResultVariation :=
  ⟨var0, [("tree-40", [])],
   [("tree-40", [baseRec 1, baseRec 5])],
   [("tree-40", [cachedRec 1, cachedRec 5])]⟩

/-- C1, counterexample: for a variant whose baseline series has query counts
`[1, 5, 10]` and whose cached series has `[1, 5]`, `to_table1_row` does not
fail; it returns a row whose three time/speedup columns each hold only the
two aligned entries. -/
theorem to_table1_row_misaligned_succeeds :
    (view1.base_var "tree-40").map (List.map BenchResult2.num_queries) =
      some [1, 5, 10] ∧
    (view1.cached_var "tree-40").map (List.map BenchResult2.num_queries) =
      some [1, 5] ∧
    view1.to_table1_row =
      some [TableRow.mk
        ["Fanout", "Tree ($N = 40$)", "2.00 / 2.00", "1.00 / 1.00",
         "\\positive\x7b2.00x\x7d / \\positive\x7b2.00x\x7d", "2"]] := by
  refine ⟨by decide, by decide, ?_⟩
  norm_num [BenchResultVariation.to_table1_row, BenchResultVariation.base_var,
    BenchResultVariation.cached_var, view1, var0, assocGet,
    List.mapM, List.mapM.loop, Option.pure_def, Option.bind_eq_bind,
    Option.some_bind, List.zipWith_cons_cons, List.zipWith_nil_right,
    List.zip, List.foldlM, pydiv, baseRec, cachedRec, statsWith,
    BenchResult2.time, BenchStats.time_uncached, BenchStats.cache_access_time,
    Time.add, Time.sub, Time.as_num, Time.float, strContains, listContains,
    get_break_even, PERFORMANCE_BREAK_EVEN, pattern_var_display_name,
    splitDash, splitDashAux, patternTab, head_display_name, fmt2,
    BAD_SPEEDUP_THRESHOLD, GOOD_SPEEDUP_THRESHOLD]
  rfl

/-- C1, amended: `zip` stops at the shorter series, so the comparison rows of
a view whose baseline series exceeds its cached series equal those of the
view with the baseline truncated to the aligned prefix — the extra baseline
entries (query count 10 here) are silently ignored, and no alignment check
exists. -/
theorem to_table1_row_truncates_to_prefix :
    view1.to_table1_row = view2.to_table1_row ∧
    (view2.base_var "tree-40").map List.length = some 2 ∧
    (view1.base_var "tree-40").map List.length = some 3 := by
  refine ⟨?_, by decide, by decide⟩
  simp only [BenchResultVariation.to_table1_row, BenchResultVariation.base_var,
    BenchResultVariation.cached_var, view1, view2, assocGet, var0,
    List.mapM, List.mapM.loop, Option.pure_def, Option.bind_eq_bind,
    Option.some_bind, List.zipWith_cons_cons, List.zipWith_nil_right,
    reduceIte, List.zip]

/-- A raw document with two leaf records under the same
`(pattern, head, variant, mode, query_count)` path. -/
def dupDoc : JsonDoc :=
  [("a", [("h", [("v", [("base", [(1, statsWith ⟨0, 0⟩), (1, statsWith ⟨0, 0⟩)])])])])]

/-- The record each of `dupDoc`'s two leaves produces. -/
def dupRec : BenchResult2 := ⟨"a", "h", "v", "base", 1, statsWith ⟨0, 0⟩⟩

/-- C2, counterexample: building the index from a document whose two leaves
share the 5-tuple key does not fail with any duplicate-key error — the walk
returns normally and keeps both records. -/
theorem from_json_keeps_duplicate_keys :
    BenchResult2.from_json dupDoc = [dupRec, dupRec] ∧
    (BenchResult2.from_json dupDoc).length = 2 := by
  constructor <;> decide

/-- C2, amended: `BenchResult2.from_json` performs no duplicate detection at
all; for every raw document it returns normally with exactly one record per
leaf, so two leaves sharing a 5-tuple key are both kept silently. -/
theorem from_json_length_eq_countLeaves (doc : JsonDoc) :
    (BenchResult2.from_json doc).length = countLeaves doc := by
  simp [BenchResult2.from_json, countLeaves, List.length_flatMap,
    List.length_map, Function.comp_def]

/-- A baseline record whose total time is 1.0001 ms. -/
def recB3 : BenchResult2 := ⟨"n", "h", "v", "base", 1, statsWith ⟨0, 1000100⟩⟩

/-- A cached record whose effective time is 1 ms. -/
def recC3 : BenchResult2 := ⟨"n", "h", "v", "cached", 1, statsWith ⟨0, 1000000⟩⟩

/-- C3, counterexample: the candidate's effective time (1 ms) is strictly
below the baseline's total time (1.0001 ms) and both are positive, yet the
classification of the speedup against thresholds (1.0, 1.0001) is `NEUTRAL`,
not `GOOD`: the ratio 1.0001 falls in the neutral band. -/
theorem classify_speedup_neutral_band :
    0 < (recC3.time false).as_num ∧
    0 < recB3.stats.time.as_num ∧
    (recC3.time false).as_num < recB3.stats.time.as_num ∧
    classify (speedup recB3 recC3 false)
      BAD_SPEEDUP_THRESHOLD GOOD_SPEEDUP_THRESHOLD = Rating.NEUTRAL := by
  norm_num [recB3, recC3, statsWith, BenchResult2.time, BenchStats.time_uncached,
    BenchStats.cache_access_time, Time.add, Time.sub, Time.as_num, Time.float,
    speedup, classify, BAD_SPEEDUP_THRESHOLD, GOOD_SPEEDUP_THRESHOLD]

/-- C3, amended: for positive times, the classification of
`speedup(b, c)` against thresholds (1.0, 1.0001) is `GOOD` whenever `b`'s
total time strictly exceeds 1.0001 times `c`'s effective time, and `BAD`
whenever `c`'s effective time is strictly greater than `b`'s total time;
between those bounds the result can be `NEUTRAL`. -/
theorem classify_speedup_amended (b c : BenchResult2) (wc : Bool)
    (_hb : 0 < b.stats.time.as_num) (hc : 0 < (c.time wc).as_num) :
    (GOOD_SPEEDUP_THRESHOLD * (c.time wc).as_num < b.stats.time.as_num →
      classify (speedup b c wc) BAD_SPEEDUP_THRESHOLD GOOD_SPEEDUP_THRESHOLD =
        Rating.GOOD) ∧
    (b.stats.time.as_num < (c.time wc).as_num →
      classify (speedup b c wc) BAD_SPEEDUP_THRESHOLD GOOD_SPEEDUP_THRESHOLD =
        Rating.BAD) := by
  constructor
  · intro h
    have h1 : GOOD_SPEEDUP_THRESHOLD < speedup b c wc := by
      rw [speedup, lt_div_iff₀ hc]
      exact h
    have h2 : ¬ speedup b c wc < BAD_SPEEDUP_THRESHOLD := by
      rw [BAD_SPEEDUP_THRESHOLD]
      rw [GOOD_SPEEDUP_THRESHOLD] at h1
      intro hlt
      nlinarith
    simp [classify, h1, h2]
  · intro h
    have h1 : speedup b c wc < BAD_SPEEDUP_THRESHOLD := by
      rw [speedup, BAD_SPEEDUP_THRESHOLD, div_lt_one hc]
      exact h
    simp [classify, h1]

/-- C3, witness: a 2 ms baseline against a 1 ms cached record classifies
`GOOD`; swapped, it classifies `BAD`. -/
theorem classify_speedup_amended_witness :
    classify (speedup (baseRec 1) (cachedRec 1) false)
      BAD_SPEEDUP_THRESHOLD GOOD_SPEEDUP_THRESHOLD = Rating.GOOD ∧
    classify (speedup (cachedRec 1) (baseRec 1) false)
      BAD_SPEEDUP_THRESHOLD GOOD_SPEEDUP_THRESHOLD = Rating.BAD := by
  constructor
  · exact (classify_speedup_amended (baseRec 1) (cachedRec 1) false
      (by norm_num [baseRec, statsWith, Time.as_num, Time.float])
      (by norm_num [cachedRec, statsWith, BenchResult2.time,
        BenchStats.time_uncached, BenchStats.cache_access_time,
        Time.add, Time.sub, Time.as_num, Time.float])).1
      (by norm_num [baseRec, cachedRec, statsWith, BenchResult2.time,
        BenchStats.time_uncached, BenchStats.cache_access_time,
        Time.add, Time.sub, Time.as_num, Time.float, GOOD_SPEEDUP_THRESHOLD])
  · exact (classify_speedup_amended (cachedRec 1) (baseRec 1) false
      (by norm_num [cachedRec, statsWith, Time.as_num, Time.float])
      (by norm_num [baseRec, statsWith, BenchResult2.time,
        BenchStats.time_uncached, BenchStats.cache_access_time,
        Time.add, Time.sub, Time.as_num, Time.float])).2
      (by norm_num [baseRec, cachedRec, statsWith, BenchResult2.time,
        BenchStats.time_uncached, BenchStats.cache_access_time,
        Time.add, Time.sub, Time.as_num, Time.float])

/-- C4: `time(with_circle=True)` is the stored total time, and
`time(with_circle=False)` is `time_uncached + cache_access_time`, which — for
records whose duration fields satisfy the nanosecond normalization
invariant — equals the total time minus the circle-check time only. -/
theorem time_effective_decomposition (r : BenchResult2)
    (h1 : r.stats.time.normalized) (h2 : r.stats.circle_check_time.normalized)
    (h3 : r.stats.cache_read_time.normalized)
    (h4 : r.stats.cache_store_time.normalized) :
    r.time true = r.stats.time ∧
    r.time false = Time.add r.stats.time_uncached r.stats.cache_access_time ∧
    r.time false = Time.sub r.stats.time r.stats.circle_check_time := by
  refine ⟨rfl, rfl, ?_⟩
  have ha : r.stats.cache_access_time.normalized := Time.normalized_add h3 h4
  have htu : r.stats.time_uncached.normalized :=
    Time.normalized_sub (Time.normalized_sub h1 ha) h2
  have hl : (r.time false).normalized := Time.normalized_add htu ha
  apply Time.eq_of_total_nanos hl (Time.normalized_sub h1 h2)
  simp only [BenchResult2.time, Bool.false_eq_true, if_false,
    BenchStats.time_uncached, Time.total_nanos_add, Time.total_nanos_sub]
  ring

/-- C4, witness: the decomposition evaluated at a concrete record. -/
theorem time_effective_decomposition_witness :
    (baseRec 1).time true = (baseRec 1).stats.time ∧
    (baseRec 1).time false =
      Time.add (baseRec 1).stats.time_uncached (baseRec 1).stats.cache_access_time ∧
    (baseRec 1).time false =
      Time.sub (baseRec 1).stats.time (baseRec 1).stats.circle_check_time :=
  time_effective_decomposition (baseRec 1) (by decide) (by decide) (by decide)
    (by decide)

/-- C5: for normalized durations, adding and then subtracting the same value
returns the original, and `toMilliseconds(Duration(1,0) + Duration(0, 5e8))`
is `1500`. -/
theorem time_add_sub_roundtrip (a b : Time) (ha : a.normalized)
    (hb : b.normalized) :
    Time.sub (Time.add a b) b = a ∧
    (Time.add ⟨1, 0⟩ ⟨0, 500000000⟩).as_num = 1500 := by
  constructor
  · apply Time.eq_of_total_nanos
      (Time.normalized_sub (Time.normalized_add ha hb) hb) ha
    simp [Time.total_nanos_add, Time.total_nanos_sub]
  · norm_num [Time.add, Time.as_num, Time.float]

/-- C5, witness: the round trip evaluated at concrete durations. -/
theorem time_add_sub_roundtrip_witness :
    Time.sub (Time.add ⟨2, 3⟩ ⟨5, 7⟩) ⟨5, 7⟩ = (⟨2, 3⟩ : Time) ∧
    (Time.add ⟨1, 0⟩ ⟨0, 500000000⟩).as_num = 1500 :=
  time_add_sub_roundtrip ⟨2, 3⟩ ⟨5, 7⟩ (by decide) (by decide)

/-- C6: for inputs whose nanosecond components lie in `[0, 1e9)`, both
addition and subtraction return a result whose nanosecond component again
lies in `[0, 1e9)` — the single carry/borrow re-normalizes the field. -/
theorem time_arith_normalized (a b : Time) (ha : a.normalized)
    (hb : b.normalized) :
    (Time.add a b).normalized ∧ (Time.sub a b).normalized :=
  ⟨Time.normalized_add ha hb, Time.normalized_sub ha hb⟩

/-- C6, witness: carry and borrow at the boundary. -/
theorem time_arith_normalized_witness :
    (Time.add ⟨0, 999999999⟩ ⟨0, 1⟩).normalized ∧
    (Time.sub ⟨0, 999999999⟩ ⟨0, 1⟩).normalized :=
  time_arith_normalized ⟨0, 999999999⟩ ⟨0, 1⟩ (by decide) (by decide)

/-- C7: `cache_frac` is exactly `0` when `graph_size = 0` — no division is
attempted (the guard precedes the division, so no `ZeroDivisionError` can
arise) — and equals `cache_size / graph_size` otherwise. -/
theorem cache_frac_spec (s : BenchStats) :
    (s.graph_size = 0 → s.cache_frac = some 0) ∧
    (s.graph_size ≠ 0 →
      s.cache_frac = some ((s.cache_size : ℚ) / (s.graph_size : ℚ))) := by
  constructor
  · intro h
    simp [BenchStats.cache_frac, h]
  · intro h
    have hq : (s.graph_size : ℚ) ≠ 0 := Int.cast_ne_zero.mpr h
    simp [BenchStats.cache_frac, h, pydiv, hq]

/-- A stats record with `cache_size = 3` and `graph_size = 6`. -/
def stats36 : BenchStats := ⟨⟨0, 0⟩, ⟨0, 0⟩, ⟨0, 0⟩, ⟨0, 0⟩, 0, 0, 0, 0, 0, 0, 3, 6⟩

/-- C7, witness: the two branches at concrete records. -/
theorem cache_frac_spec_witness :
    (statsWith ⟨0, 0⟩).cache_frac = some 0 ∧
    stats36.cache_frac = some ((stats36.cache_size : ℚ) / (stats36.graph_size : ℚ)) :=
  ⟨(cache_frac_spec (statsWith ⟨0, 0⟩)).1 rfl,
   (cache_frac_spec stats36).2 (by decide)⟩

/-- Appending under key `k` leaves the lookup of any other key unchanged. -/
theorem assocGet_dictAppend_ne (d : Assoc) (k v : String) (x : BenchResult2)
    (h : k ≠ v) : assocGet (dictAppend d k x) v = assocGet d v := by
  induction d with
  | nil => simp [dictAppend, assocGet, h]
  | cons p rest ih =>
    obtain ⟨k2, l⟩ := p
    by_cases hk : k2 = k
    · subst hk
      simp [dictAppend, assocGet, h]
    · simp [dictAppend, assocGet, hk, ih]

/-- The record loop of `BenchResultVariation.__init__` succeeds and never
creates a bucket for a variant label no record carries. -/
theorem foldl_addRecord_spec (var : VariationData) (v : String) :
    ∀ (rs : List BenchResult2) (acc : Assoc × Assoc),
    (∀ r ∈ rs, r.query_type = "base" ∨ r.query_type = "cached") →
    (∀ r ∈ rs, ¬(r.name = var.name ∧ r.head_type = var.head_type ∧
      r.pattern_var = v)) →
    assocGet acc.1 v = none → assocGet acc.2 v = none →
    ∃ p, List.foldlM (addRecord var) acc rs = some p ∧
      assocGet p.1 v = none ∧ assocGet p.2 v = none := by
  intro rs
  induction rs with
  | nil =>
    intro acc _ _ h1 h2
    exact ⟨acc, rfl, h1, h2⟩
  | cons r rest ih =>
    intro acc hq hv h1 h2
    have step : ∃ acc2, addRecord var acc r = some acc2 ∧
        assocGet acc2.1 v = none ∧ assocGet acc2.2 v = none := by
      by_cases hm : r.name = var.name ∧ r.head_type = var.head_type ∧
          r.pattern_var ∈ var.pattern_var
      · have hpv : r.pattern_var ≠ v := by
          intro he
          exact hv r (List.mem_cons_self r rest) ⟨hm.1, hm.2.1, he⟩
        rcases hq r (List.mem_cons_self r rest) with hb | hc
        · refine ⟨(dictAppend acc.1 r.pattern_var r, acc.2), ?_, ?_, h2⟩
          · simp [addRecord, hm, hb]
          · simpa using (assocGet_dictAppend_ne acc.1 r.pattern_var v r hpv).trans h1
        · refine ⟨(acc.1, dictAppend acc.2 r.pattern_var r), ?_, h1, ?_⟩
          · simp [addRecord, hm, hc]
          · simpa using (assocGet_dictAppend_ne acc.2 r.pattern_var v r hpv).trans h2
      · exact ⟨acc, by simp [addRecord, hm], h1, h2⟩
    obtain ⟨acc2, hstep, h1', h2'⟩ := step
    have hfold : List.foldlM (addRecord var) acc (r :: rest) =
        List.foldlM (addRecord var) acc2 rest := by
      simp [List.foldlM_cons, hstep]
    rw [hfold]
    exact ih acc2 (fun x hx => hq x (List.mem_cons_of_mem r hx))
      (fun x hx => hv x (List.mem_cons_of_mem r hx)) h1' h2'

/-- Access to the baseline series of an optionally-built view. -/
def base_access (o : Option BenchResultVariation) (v : String) :
    Option (List BenchResult2) :=
  o.bind (fun w => w.base_var v)

/-- Access to the cached series of an optionally-built view. -/
def cached_access (o : Option BenchResultVariation) (v : String) :
    Option (List BenchResult2) :=
  o.bind (fun w => w.cached_var v)

/-- C8, amended: when every record carries a `base`/`cached` mode and no
record matches variant `v`, building the view succeeds, but `v`'s bucket is
*absent* from both inner dictionaries: accessing the baseline or cached
series raises `KeyError` (modelled `none`) instead of returning an empty
list. -/
theorem variation_empty_bucket (var : VariationData) (rs : List BenchResult2)
    (v : String)
    (hq : ∀ r ∈ rs, r.query_type = "base" ∨ r.query_type = "cached")
    (hv : ∀ r ∈ rs, ¬(r.name = var.name ∧ r.head_type = var.head_type ∧
      r.pattern_var = v)) :
    (BenchResultVariation.init var rs).isSome = true ∧
    base_access (BenchResultVariation.init var rs) v = none ∧
    cached_access (BenchResultVariation.init var rs) v = none := by
  obtain ⟨p, hp, hp1, hp2⟩ :=
    foldl_addRecord_spec var v rs (([], []) : Assoc × Assoc) hq hv rfl rfl
  refine ⟨?_, ?_, ?_⟩ <;>
    simp [BenchResultVariation.init, hp, base_access, cached_access,
      BenchResultVariation.base_var, BenchResultVariation.cached_var, hp1, hp2]

/-- A record whose pattern name matches no variation used in the examples. -/
def strayRec : BenchResult2 := ⟨"other", "h", "v", "base", 1, statsWith ⟨0, 0⟩⟩

/-- C8, witness: building `var0`'s view over a list holding only a
non-matching record succeeds, and both series accesses for `"tree-40"`
yield `none`. -/
theorem variation_empty_bucket_witness :
    (BenchResultVariation.init var0 [strayRec]).isSome = true ∧
    base_access (BenchResultVariation.init var0 [strayRec]) "tree-40" = none ∧
    cached_access (BenchResultVariation.init var0 [strayRec]) "tree-40" = none :=
  variation_empty_bucket var0 [strayRec] "tree-40" (by decide) (by decide)

/-- C8, counterexample: with no matching records the build succeeds, yet the
baseline-series access returns `none` (a raised `KeyError`), not the empty
list the claim promises. -/
theorem variation_empty_bucket_access_raises :
    (BenchResultVariation.init var0 []).isSome = true ∧
    base_access (BenchResultVariation.init var0 []) "tree-40" = none ∧
    cached_access (BenchResultVariation.init var0 []) "tree-40" = none ∧
    base_access (BenchResultVariation.init var0 []) "tree-40" ≠ some [] := by
  refine ⟨by decide, by decide, by decide, by decide⟩

/-- A record whose `name` field itself holds the `"::"` delimiter. -/
def collA : BenchResult2 := ⟨"a::b", "c", "d", "base", 1, statsWith ⟨0, 0⟩⟩

/-- A record with different key fields rendering to the same joined string. -/
def collB : BenchResult2 := ⟨"a", "b::c", "d", "base", 1, statsWith ⟨0, 0⟩⟩

/-- C9: `eq_br` holds exactly when the `"::"`-joined renderings agree, and
two records with different 5-tuple fields (fields containing the delimiter)
satisfy it — so `eq_br`, and the `get_entry` lookup routed through it, is
not field-wise key equality. -/
theorem eq_br_string_collision :
    (∀ a b : BenchResult2, a.eq_br b = (a.to_str == b.to_str)) ∧
    collA.eq_br collB = true ∧
    collA.name ≠ collB.name ∧
    collA.head_type ≠ collB.head_type ∧
    get_entry [collB] collA = some collB := by
  refine ⟨fun a b => rfl, by decide, by decide, by decide, by decide⟩

/-- C10: whenever the effective time of the record used in a cache-size row
is nonzero, the three time shares reported by `to_table2_row` —
`time_uncached`, `cache_access_time` and the mode-adjusted
`circle_check_time`, each over `time(with_circle)` — sum to exactly 1 in
exact arithmetic. -/
theorem table2_shares_sum_to_one (r : BenchResult2) (wc : Bool)
    (h : (r.time wc).as_num ≠ 0) :
    r.stats.time_uncached.as_num / (r.time wc).as_num +
    r.stats.cache_access_time.as_num / (r.time wc).as_num +
    (r.circle_check_time wc).as_num / (r.time wc).as_num = 1 := by
  have hz : (⟨0, 0⟩ : Time).total_nanos = 0 := rfl
  have key : r.stats.time_uncached.as_num + r.stats.cache_access_time.as_num +
      (r.circle_check_time wc).as_num = (r.time wc).as_num := by
    cases wc <;>
      simp only [Time.as_num_eq_total_nanos, BenchResult2.time,
        BenchResult2.circle_check_time, BenchStats.time_uncached,
        Time.total_nanos_add, Time.total_nanos_sub, hz,
        Bool.false_eq_true, if_false, if_true] <;>
      push_cast <;>
      ring
  rw [div_add_div_same, div_add_div_same, key, div_self h]

/-- C10, witness: the shares of a concrete cached record sum to 1. -/
theorem table2_shares_sum_to_one_witness :
    (cachedRec 1).stats.time_uncached.as_num / ((cachedRec 1).time false).as_num +
    (cachedRec 1).stats.cache_access_time.as_num / ((cachedRec 1).time false).as_num +
    ((cachedRec 1).circle_check_time false).as_num / ((cachedRec 1).time false).as_num = 1 :=
  table2_shares_sum_to_one (cachedRec 1) false
    (by norm_num [cachedRec, statsWith, BenchResult2.time,
      BenchStats.time_uncached, BenchStats.cache_access_time,
      Time.add, Time.sub, Time.as_num, Time.float])

